import Mathlib

/-!
Verification of the Ship-Navigation-Optimization core against its
natural-language specification.

The development shallow-embeds the pure logic of `CoordConv.py` and of the
pathfinding core in `ActualMain.py` (alignment evaluator, cost model,
neighbor generator, A* loop, cache-clearing action, and the manual-mode
pre-search validation) and proves or refutes the specification claims.

Numeric conventions: Python floats are modelled as exact rationals; Python
`round` (banker's rounding) is modelled by Mathlib `round` (half-up) — the
two agree away from exact half-way points, and for every input considered
in the theorems below the rounded quantities are never exact halves.
-/

namespace ShipNav

/-! ## Coordinate converter (CoordConv.py) -/

def NORTHERNMOST_LATITUDE : ℚ := 37.1

def NORTHERNMOST_GRID_Y : ℤ := 9

def SOUTHERNMOST_LATITUDE : ℚ := 8.1

def SOUTHERNMOST_GRID_Y : ℤ := 135

def WESTERNMOST_LONGITUDE : ℚ := 68.1167

def EASTERNMOST_LONGITUDE : ℚ := 97.4167

def WESTERNMOST_GRID_X : ℤ := 16

def EASTERNMOST_GRID_X : ℤ := 121

/-- Python `round(x, 3)`: round to 3 decimal digits. -/
def round3 (q : ℚ) : ℚ := (round (q * 1000) : ℚ) / 1000

/-- CoordConv.grid_to_latitude: linear interpolation between the calibration
endpoints, quantized to the nearest 0.25 degree, then rounded to 3 decimals. -/
def grid_to_latitude (grid_y : ℤ) : ℚ :=
  let latitude_per_cell : ℚ :=
    (NORTHERNMOST_LATITUDE - SOUTHERNMOST_LATITUDE) /
      ((NORTHERNMOST_GRID_Y : ℚ) - (SOUTHERNMOST_GRID_Y : ℚ))
  let latitude : ℚ :=
    NORTHERNMOST_LATITUDE + ((grid_y : ℚ) - (NORTHERNMOST_GRID_Y : ℚ)) * latitude_per_cell
  let latitude : ℚ := (round (latitude / 0.250) : ℚ) * 0.250
  round3 latitude

/-- CoordConv.grid_to_longitude: linear interpolation between the calibration
endpoints, quantized to the nearest 0.25 degree offset by 0.125, then rounded
to 3 decimals. -/
def grid_to_longitude (grid_x : ℤ) : ℚ :=
  let longitude_per_cell : ℚ :=
    (EASTERNMOST_LONGITUDE - WESTERNMOST_LONGITUDE) /
      ((EASTERNMOST_GRID_X : ℚ) - (WESTERNMOST_GRID_X : ℚ))
  let longitude : ℚ :=
    WESTERNMOST_LONGITUDE + ((grid_x : ℚ) - (WESTERNMOST_GRID_X : ℚ)) * longitude_per_cell
  let longitude : ℚ := (round ((longitude - 0.125) / 0.250) : ℚ) * 0.250 + 0.125
  round3 longitude

/-- CoordConv.latitude_to_grid: clamp the latitude to the calibration range,
invert the linear mapping, round to the nearest integer cell, and clamp the
grid index to the valid row range. -/
def latitude_to_grid (latitude : ℚ) : ℤ :=
  let latitude : ℚ :=
    if latitude > NORTHERNMOST_LATITUDE then NORTHERNMOST_LATITUDE
    else if latitude < SOUTHERNMOST_LATITUDE then SOUTHERNMOST_LATITUDE
    else latitude
  let latitude_per_cell : ℚ :=
    (NORTHERNMOST_LATITUDE - SOUTHERNMOST_LATITUDE) /
      ((NORTHERNMOST_GRID_Y : ℚ) - (SOUTHERNMOST_GRID_Y : ℚ))
  let grid_y : ℤ :=
    round ((NORTHERNMOST_GRID_Y : ℚ) + (latitude - NORTHERNMOST_LATITUDE) / latitude_per_cell)
  max NORTHERNMOST_GRID_Y (min grid_y SOUTHERNMOST_GRID_Y)

/-- CoordConv.longitude_to_grid: clamp the longitude to the calibration range,
invert the linear mapping, round to the nearest integer cell, and clamp the
grid index to the valid column range. -/
def longitude_to_grid (longitude : ℚ) : ℤ :=
  let longitude : ℚ :=
    if longitude < WESTERNMOST_LONGITUDE then WESTERNMOST_LONGITUDE
    else if longitude > EASTERNMOST_LONGITUDE then EASTERNMOST_LONGITUDE
    else longitude
  let longitude_per_cell : ℚ :=
    (EASTERNMOST_LONGITUDE - WESTERNMOST_LONGITUDE) /
      ((EASTERNMOST_GRID_X : ℚ) - (WESTERNMOST_GRID_X : ℚ))
  let grid_x : ℤ :=
    round ((WESTERNMOST_GRID_X : ℚ) + (longitude - WESTERNMOST_LONGITUDE) / longitude_per_cell)
  max WESTERNMOST_GRID_X (min grid_x EASTERNMOST_GRID_X)

/-- Closed integer form of `grid_to_latitude`: the quantized latitude is a
quarter-integer whose numerator is an explicit floor division. -/
lemma grid_to_latitude_eq (y : ℤ) :
    grid_to_latitude y = (((99027 - 580 * y) / 630 : ℤ) : ℚ) / 4 := by
  simp only [grid_to_latitude, NORTHERNMOST_LATITUDE, SOUTHERNMOST_LATITUDE,
    NORTHERNMOST_GRID_Y, SOUTHERNMOST_GRID_Y, round3]
  have harg :
      (37.1 + ((y : ℚ) - (((9 : ℤ) : ℚ))) * ((37.1 - 8.1) / (((9 : ℤ) : ℚ) - ((135 : ℤ) : ℚ)))) /
          0.250 + 1 / 2 =
        ((99027 - 580 * y : ℤ) : ℚ) / ((630 : ℕ) : ℚ) := by
    push_cast
    norm_num
    ring
  have hinner :
      round ((37.1 + ((y : ℚ) - (((9 : ℤ) : ℚ))) *
          ((37.1 - 8.1) / (((9 : ℤ) : ℚ) - ((135 : ℤ) : ℚ)))) / 0.250) =
        (99027 - 580 * y) / 630 := by
    rw [round_eq, harg, Rat.floor_intCast_div_natCast]
    norm_num
  rw [hinner]
  have hq : (((((99027 - 580 * y) / 630 : ℤ) : ℚ)) * 0.250) * 1000 =
      ((250 * ((99027 - 580 * y) / 630) : ℤ) : ℚ) := by
    push_cast
    ring
  rw [hq, round_intCast]
  push_cast
  ring

/-- Closed integer form of `grid_to_longitude`: the quantized longitude is a
quarter-integer offset by 1/8, with an explicit floor-division numerator. -/
lemma grid_to_longitude_eq (x : ℤ) :
    grid_to_longitude x = (((13366907 + 58600 * x) / 52500 : ℤ) : ℚ) / 4 + 1 / 8 := by
  simp only [grid_to_longitude, WESTERNMOST_LONGITUDE, EASTERNMOST_LONGITUDE,
    WESTERNMOST_GRID_X, EASTERNMOST_GRID_X, round3]
  have harg :
      (68.1167 + ((x : ℚ) - ((16 : ℤ) : ℚ)) * ((97.4167 - 68.1167) / (((121 : ℤ) : ℚ) - ((16 : ℤ) : ℚ))) -
            0.125) / 0.250 + 1 / 2 =
        ((13366907 + 58600 * x : ℤ) : ℚ) / ((52500 : ℕ) : ℚ) := by
    push_cast
    norm_num
    ring
  have hinner :
      round ((68.1167 + ((x : ℚ) - ((16 : ℤ) : ℚ)) *
          ((97.4167 - 68.1167) / (((121 : ℤ) : ℚ) - ((16 : ℤ) : ℚ))) - 0.125) / 0.250) =
        (13366907 + 58600 * x) / 52500 := by
    rw [round_eq, harg, Rat.floor_intCast_div_natCast]
    norm_num
  rw [hinner]
  have hq : ((((13366907 + 58600 * x) / 52500 : ℤ) : ℚ) * 0.250 + 0.125) * 1000 =
      ((250 * ((13366907 + 58600 * x) / 52500) + 125 : ℤ) : ℚ) := by
    push_cast
    ring
  rw [hq, round_intCast]
  push_cast
  ring

/-- Closed integer form of `latitude_to_grid` on quarter-integer latitudes that
lie inside the calibration bounds (so the input clamps are inactive). -/
lemma latitude_to_grid_quarter (k : ℤ)
    (h1 : SOUTHERNMOST_LATITUDE ≤ (k : ℚ) / 4) (h2 : (k : ℚ) / 4 ≤ NORTHERNMOST_LATITUDE) :
    latitude_to_grid ((k : ℚ) / 4) =
      max NORTHERNMOST_GRID_Y (min ((49501 - 315 * k) / 290) SOUTHERNMOST_GRID_Y) := by
  simp only [latitude_to_grid, NORTHERNMOST_LATITUDE, SOUTHERNMOST_LATITUDE,
    NORTHERNMOST_GRID_Y, SOUTHERNMOST_GRID_Y] at h1 h2 ⊢
  rw [if_neg (by linarith), if_neg (by linarith), round_eq]
  have harg :
      ((9 : ℤ) : ℚ) + ((k : ℚ) / 4 - 37.1) / ((37.1 - 8.1) / (((9 : ℤ) : ℚ) - ((135 : ℤ) : ℚ))) +
          1 / 2 =
        ((49501 - 315 * k : ℤ) : ℚ) / ((290 : ℕ) : ℚ) := by
    push_cast
    norm_num
    ring
  rw [harg, Rat.floor_intCast_div_natCast]
  norm_num

/-- Closed integer form of `longitude_to_grid` on quantized longitudes
(quarter-integers offset by 1/8) inside the calibration bounds. -/
lemma longitude_to_grid_eighth (m : ℤ)
    (h1 : WESTERNMOST_LONGITUDE ≤ (m : ℚ) / 4 + 1 / 8)
    (h2 : (m : ℚ) / 4 + 1 / 8 ≤ EASTERNMOST_LONGITUDE) :
    longitude_to_grid ((m : ℚ) / 4 + 1 / 8) =
      max WESTERNMOST_GRID_X (min ((52500 * m - 13311357) / 58600) EASTERNMOST_GRID_X) := by
  simp only [longitude_to_grid, WESTERNMOST_LONGITUDE, EASTERNMOST_LONGITUDE,
    WESTERNMOST_GRID_X, EASTERNMOST_GRID_X] at h1 h2 ⊢
  rw [if_neg (by linarith), if_neg (by linarith), round_eq]
  have harg :
      ((16 : ℤ) : ℚ) + ((m : ℚ) / 4 + 1 / 8 - 68.1167) /
            ((97.4167 - 68.1167) / (((121 : ℤ) : ℚ) - ((16 : ℤ) : ℚ))) + 1 / 2 =
        ((52500 * m - 13311357 : ℤ) : ℚ) / ((58600 : ℕ) : ℚ) := by
    push_cast
    norm_num
    ring
  rw [harg, Rat.floor_intCast_div_natCast]
  norm_num

/-- Claim C1 fails on the code: at grid cell (16, 10) no clamping occurs on the
conversion (the quantized coordinates lie inside the calibration bounds), yet
converting back yields cell (16, 11), not (16, 10): two adjacent rows quantize
to latitudes 0.25 degrees apart while a row is only 29/126 of a degree tall, so
the quantized latitude can round back to the neighboring row. -/
theorem claim_C1_counterexample :
    WESTERNMOST_LONGITUDE ≤ grid_to_longitude 16 ∧
    grid_to_longitude 16 ≤ EASTERNMOST_LONGITUDE ∧
    SOUTHERNMOST_LATITUDE ≤ grid_to_latitude 10 ∧
    grid_to_latitude 10 ≤ NORTHERNMOST_LATITUDE ∧
    (longitude_to_grid (grid_to_longitude 16), latitude_to_grid (grid_to_latitude 10)) =
      ((16 : ℤ), (11 : ℤ)) ∧
    ((16 : ℤ), (11 : ℤ)) ≠ ((16 : ℤ), (10 : ℤ)) := by
  have hlat : grid_to_latitude 10 = ((147 : ℤ) : ℚ) / 4 := by
    rw [grid_to_latitude_eq]; norm_num
  have hlon : grid_to_longitude 16 = ((272 : ℤ) : ℚ) / 4 + 1 / 8 := by
    rw [grid_to_longitude_eq]; norm_num
  have hblat : SOUTHERNMOST_LATITUDE ≤ ((147 : ℤ) : ℚ) / 4 ∧
      ((147 : ℤ) : ℚ) / 4 ≤ NORTHERNMOST_LATITUDE := by
    constructor <;> norm_num [SOUTHERNMOST_LATITUDE, NORTHERNMOST_LATITUDE]
  have hblon : WESTERNMOST_LONGITUDE ≤ ((272 : ℤ) : ℚ) / 4 + 1 / 8 ∧
      ((272 : ℤ) : ℚ) / 4 + 1 / 8 ≤ EASTERNMOST_LONGITUDE := by
    constructor <;> norm_num [WESTERNMOST_LONGITUDE, EASTERNMOST_LONGITUDE]
  refine ⟨by rw [hlon]; exact hblon.1, by rw [hlon]; exact hblon.2,
    by rw [hlat]; exact hblat.1, by rw [hlat]; exact hblat.2, ?_, by decide⟩
  rw [hlat, hlon, latitude_to_grid_quarter 147 hblat.1 hblat.2,
    longitude_to_grid_eighth 272 hblon.1 hblon.2]
  norm_num [WESTERNMOST_GRID_X, EASTERNMOST_GRID_X, NORTHERNMOST_GRID_Y, SOUTHERNMOST_GRID_Y]

/-- Claim C1 (amended): for every grid cell (x, y) in the calibration range,
the longitude round-trip is exact whenever no clamping occurs, while the
latitude round-trip is only guaranteed to land within one row of the original
cell (and does drift by one row for some rows, see the counterexample). -/
theorem claim_C1_roundtrip (x y : ℤ) (hx1 : 16 ≤ x) (hx2 : x ≤ 121)
    (hy1 : 9 ≤ y) (hy2 : y ≤ 135) :
    (WESTERNMOST_LONGITUDE ≤ grid_to_longitude x ∧
      grid_to_longitude x ≤ EASTERNMOST_LONGITUDE →
      longitude_to_grid (grid_to_longitude x) = x) ∧
    (SOUTHERNMOST_LATITUDE ≤ grid_to_latitude y ∧
      grid_to_latitude y ≤ NORTHERNMOST_LATITUDE →
      |latitude_to_grid (grid_to_latitude y) - y| ≤ 1) := by
  constructor
  · intro h
    rw [grid_to_longitude_eq] at h ⊢
    rw [longitude_to_grid_eighth _ h.1 h.2]
    simp only [WESTERNMOST_GRID_X, EASTERNMOST_GRID_X]
    omega
  · intro h
    rw [grid_to_latitude_eq] at h ⊢
    rw [latitude_to_grid_quarter _ h.1 h.2]
    simp only [NORTHERNMOST_GRID_Y, SOUTHERNMOST_GRID_Y]
    rw [abs_le]
    omega

/-- Witness for the amended round-trip claim at the concrete cell (20, 20). -/
theorem claim_C1_roundtrip_witness :
    (WESTERNMOST_LONGITUDE ≤ grid_to_longitude 20 ∧
      grid_to_longitude 20 ≤ EASTERNMOST_LONGITUDE →
      longitude_to_grid (grid_to_longitude 20) = 20) ∧
    (SOUTHERNMOST_LATITUDE ≤ grid_to_latitude 20 ∧
      grid_to_latitude 20 ≤ NORTHERNMOST_LATITUDE →
      |latitude_to_grid (grid_to_latitude 20) - 20| ≤ 1) :=
  claim_C1_roundtrip 20 20 (by decide) (by decide) (by decide) (by decide)

/-! ## Environmental alignment evaluator (ActualMain.py, lines 818-865) -/

/-- Python float modulo: the result carries the sign of the divisor.  This is
the `%` used on angles in the alignment evaluator. -/
def pymod (a b : ℚ) : ℚ := a - b * (⌊a / b⌋ : ℚ)

/-- ActualMain.is_aligned_with_wind (lines 818-840), with the two external
effects factored out faithfully: `wind_direction` is the provider sample for
the cell (memoizing a deterministic provider is observation-equivalent to
calling it), and `movement_angle` is the integer
`round(degrees(atan2(dy, dx))) % 360` computed by the source, passed in
already evaluated because its trigonometry has no exact rational form.
Returns 1 when the window test passes and 0 otherwise, as the source does. -/
def is_aligned_with_wind (wind_direction : ℚ) (movement_angle : ℤ) : ℤ :=
  let lower := pymod (wind_direction - 25) 360
  let upper := pymod (wind_direction + 25) 360
  if (lower ≤ (movement_angle : ℚ) ∧ (movement_angle : ℚ) ≤ upper) ∨
      (lower > upper ∧ ((movement_angle : ℚ) ≥ lower ∨ (movement_angle : ℚ) ≤ upper)) then 1
  else 0

/-- ActualMain.is_aligned_with_current (lines 843-865): identical window test
against the ocean-current sample for the cell. -/
def is_aligned_with_current (current_direction : ℚ) (movement_angle : ℤ) : ℤ :=
  let lower := pymod (current_direction - 25) 360
  let upper := pymod (current_direction + 25) 360
  if (lower ≤ (movement_angle : ℚ) ∧ (movement_angle : ℚ) ≤ upper) ∨
      (lower > upper ∧ ((movement_angle : ℚ) ≥ lower ∨ (movement_angle : ℚ) ≤ upper)) then 1
  else 0

/-- Specification-side predicate: the movement angle lies within 25 degrees of
the sampled direction on the circle (circular distance at most 25, i.e. the
wrapped difference falls in [0, 25] or in [335, 360)). -/
def withinToleranceArc (direction : ℚ) (movement_angle : ℤ) : Prop :=
  pymod ((movement_angle : ℚ) - direction) 360 ≤ 25 ∨
    335 ≤ pymod ((movement_angle : ℚ) - direction) 360

lemma pymod_eq (a b : ℚ) (k : ℤ) (hb : 0 < b) (h1 : b * (k : ℚ) ≤ a)
    (h2 : a < b * ((k : ℚ) + 1)) : pymod a b = a - b * (k : ℚ) := by
  have hfloor : ⌊a / b⌋ = k := by
    rw [Int.floor_eq_iff]
    constructor
    · rw [le_div_iff hb]
      linarith
    · rw [div_lt_iff hb]
      linarith
  rw [pymod, hfloor]

lemma is_aligned_with_wind_eq_one_iff (d : ℚ) (a : ℤ) :
    is_aligned_with_wind d a = 1 ↔
      ((pymod (d - 25) 360 ≤ (a : ℚ) ∧ (a : ℚ) ≤ pymod (d + 25) 360) ∨
        (pymod (d - 25) 360 > pymod (d + 25) 360 ∧
          ((a : ℚ) ≥ pymod (d - 25) 360 ∨ (a : ℚ) ≤ pymod (d + 25) 360))) := by
  unfold is_aligned_with_wind
  dsimp only
  split_ifs with h
  · simp [h]
  · simp [h]

lemma is_aligned_with_current_eq_one_iff (d : ℚ) (a : ℤ) :
    is_aligned_with_current d a = 1 ↔
      ((pymod (d - 25) 360 ≤ (a : ℚ) ∧ (a : ℚ) ≤ pymod (d + 25) 360) ∨
        (pymod (d - 25) 360 > pymod (d + 25) 360 ∧
          ((a : ℚ) ≥ pymod (d - 25) 360 ∨ (a : ℚ) ≤ pymod (d + 25) 360))) := by
  unfold is_aligned_with_current
  dsimp only
  split_ifs with h
  · simp [h]
  · simp [h]

/-- The window test of the source is exactly the circular tolerance arc, for
any in-range sampled direction and movement angle. -/
lemma aligned_window_iff_arc (d : ℚ) (hd0 : 0 ≤ d) (hd1 : d < 360)
    (a : ℤ) (ha0 : 0 ≤ a) (ha1 : a < 360) :
    ((pymod (d - 25) 360 ≤ (a : ℚ) ∧ (a : ℚ) ≤ pymod (d + 25) 360) ∨
      (pymod (d - 25) 360 > pymod (d + 25) 360 ∧
        ((a : ℚ) ≥ pymod (d - 25) 360 ∨ (a : ℚ) ≤ pymod (d + 25) 360))) ↔
      withinToleranceArc d a := by
  have ha0Q : (0 : ℚ) ≤ (a : ℚ) := by exact_mod_cast ha0
  have ha1Q : (a : ℚ) < 360 := by exact_mod_cast ha1
  unfold withinToleranceArc
  have hm : (d ≤ (a : ℚ) → pymod ((a : ℚ) - d) 360 = (a : ℚ) - d) ∧
      ((a : ℚ) < d → pymod ((a : ℚ) - d) 360 = (a : ℚ) - d + 360) := by
    constructor
    · intro hda
      rw [pymod_eq _ 360 0 (by norm_num) (by push_cast; linarith) (by push_cast; linarith)]
      push_cast
      ring
    · intro hda
      rw [pymod_eq _ 360 (-1) (by norm_num) (by push_cast; linarith) (by push_cast; linarith)]
      push_cast
      ring
  rcases lt_or_le d 25 with hd25 | hd25
  · have hlow : pymod (d - 25) 360 = d + 335 := by
      rw [pymod_eq _ 360 (-1) (by norm_num) (by push_cast; linarith) (by push_cast; linarith)]
      push_cast
      ring
    have hup : pymod (d + 25) 360 = d + 25 := by
      rw [pymod_eq _ 360 0 (by norm_num) (by push_cast; linarith) (by push_cast; linarith)]
      push_cast
      ring
    rw [hlow, hup]
    rcases le_or_lt d (a : ℚ) with hda | hda
    · rw [hm.1 hda]
      constructor
      · rintro (⟨hx, hy⟩ | ⟨-, hx | hx⟩)
        · right; linarith
        · right; linarith
        · left; linarith
      · rintro (hx | hx)
        · exact Or.inr ⟨by linarith, Or.inr (by linarith)⟩
        · exact Or.inr ⟨by linarith, Or.inl (by linarith)⟩
    · rw [hm.2 hda]
      constructor
      · rintro _
        right; linarith
      · rintro _
        exact Or.inr ⟨by linarith, Or.inr (by linarith)⟩
  · rcases lt_or_le d 335 with hd335 | hd335
    · have hlow : pymod (d - 25) 360 = d - 25 := by
        rw [pymod_eq _ 360 0 (by norm_num) (by push_cast; linarith) (by push_cast; linarith)]
        push_cast
        ring
      have hup : pymod (d + 25) 360 = d + 25 := by
        rw [pymod_eq _ 360 0 (by norm_num) (by push_cast; linarith) (by push_cast; linarith)]
        push_cast
        ring
      rw [hlow, hup]
      rcases le_or_lt d (a : ℚ) with hda | hda
      · rw [hm.1 hda]
        constructor
        · rintro (⟨hx, hy⟩ | ⟨hx, -⟩)
          · left; linarith
          · exact absurd hx (by linarith)
        · rintro (hx | hx)
          · exact Or.inl ⟨by linarith, by linarith⟩
          · exact absurd hx (by linarith)
      · rw [hm.2 hda]
        constructor
        · rintro (⟨hx, hy⟩ | ⟨hx, -⟩)
          · right; linarith
          · exact absurd hx (by linarith)
        · rintro (hx | hx)
          · exact absurd hx (by linarith)
          · exact Or.inl ⟨by linarith, by linarith⟩
    · have hlow : pymod (d - 25) 360 = d - 25 := by
        rw [pymod_eq _ 360 0 (by norm_num) (by push_cast; linarith) (by push_cast; linarith)]
        push_cast
        ring
      have hup : pymod (d + 25) 360 = d - 335 := by
        rw [pymod_eq _ 360 1 (by norm_num) (by push_cast; linarith) (by push_cast; linarith)]
        push_cast
        ring
      rw [hlow, hup]
      rcases le_or_lt d (a : ℚ) with hda | hda
      · rw [hm.1 hda]
        constructor
        · rintro _
          left; linarith
        · rintro _
          exact Or.inr ⟨by linarith, Or.inl (by linarith)⟩
      · rw [hm.2 hda]
        constructor
        · rintro (⟨hx, hy⟩ | ⟨-, hx | hx⟩)
          · exact absurd (le_trans hx hy) (by linarith)
          · right; linarith
          · left; linarith
        · rintro (hx | hx)
          · exact Or.inr ⟨by linarith, Or.inr (by linarith)⟩
          · exact Or.inr ⟨by linarith, Or.inl (by linarith)⟩

lemma is_aligned_with_wind_zero_or_one (d : ℚ) (a : ℤ) :
    is_aligned_with_wind d a = 0 ∨ is_aligned_with_wind d a = 1 := by
  unfold is_aligned_with_wind
  dsimp only
  split_ifs <;> simp

/-- Claim C4: the alignment evaluators return 1 exactly when the movement
angle lies within 25 degrees (circularly) of the sampled direction, including
the wraparound at the 0/360 boundary; for a sampled direction of 10 degrees
the aligned movement angles are exactly 345..359 and 0..35, with 344 and 36
excluded. -/
theorem claim_C4_alignment :
    (∀ d : ℚ, 0 ≤ d → d < 360 → ∀ a : ℤ, 0 ≤ a → a < 360 →
      (is_aligned_with_wind d a = 1 ↔ withinToleranceArc d a) ∧
      (is_aligned_with_current d a = 1 ↔ withinToleranceArc d a)) ∧
    (∀ a : ℤ, 0 ≤ a → a < 360 →
      (is_aligned_with_wind 10 a = 1 ↔ (345 ≤ a ∨ a ≤ 35)) ∧
      (is_aligned_with_current 10 a = 1 ↔ (345 ≤ a ∨ a ≤ 35))) ∧
    is_aligned_with_wind 10 344 = 0 ∧ is_aligned_with_wind 10 36 = 0 ∧
    is_aligned_with_current 10 344 = 0 ∧ is_aligned_with_current 10 36 = 0 := by
  have hgen : ∀ d : ℚ, 0 ≤ d → d < 360 → ∀ a : ℤ, 0 ≤ a → a < 360 →
      (is_aligned_with_wind d a = 1 ↔ withinToleranceArc d a) ∧
      (is_aligned_with_current d a = 1 ↔ withinToleranceArc d a) := by
    intro d hd0 hd1 a ha0 ha1
    constructor
    · rw [is_aligned_with_wind_eq_one_iff]
      exact aligned_window_iff_arc d hd0 hd1 a ha0 ha1
    · rw [is_aligned_with_current_eq_one_iff]
      exact aligned_window_iff_arc d hd0 hd1 a ha0 ha1
  have harc10 : ∀ a : ℤ, 0 ≤ a → a < 360 →
      (withinToleranceArc 10 a ↔ (345 ≤ a ∨ a ≤ 35)) := by
    intro a ha0 ha1
    have ha0Q : (0 : ℚ) ≤ (a : ℚ) := by exact_mod_cast ha0
    have ha1Q : (a : ℚ) < 360 := by exact_mod_cast ha1
    unfold withinToleranceArc
    rcases le_or_lt (10 : ℚ) (a : ℚ) with hda | hda
    · have hp : pymod ((a : ℚ) - 10) 360 = (a : ℚ) - 10 := by
        rw [pymod_eq _ 360 0 (by norm_num) (by push_cast; linarith) (by push_cast; linarith)]
        push_cast
        ring
      rw [hp]
      constructor
      · rintro (hx | hx)
        · right
          have : (a : ℚ) ≤ 35 := by linarith
          exact_mod_cast this
        · left
          have : (345 : ℚ) ≤ (a : ℚ) := by linarith
          exact_mod_cast this
      · rintro (hx | hx)
        · right
          have hxq : (345 : ℚ) ≤ (a : ℚ) := by exact_mod_cast hx
          linarith
        · left
          have hxq : (a : ℚ) ≤ 35 := by exact_mod_cast hx
          linarith
    · have hp : pymod ((a : ℚ) - 10) 360 = (a : ℚ) + 350 := by
        rw [pymod_eq _ 360 (-1) (by norm_num) (by push_cast; linarith) (by push_cast; linarith)]
        push_cast
        ring
      rw [hp]
      constructor
      · rintro _
        right
        have : (a : ℚ) ≤ 35 := by linarith
        exact_mod_cast this
      · rintro _
        right
        linarith
  have hten : ∀ a : ℤ, 0 ≤ a → a < 360 →
      (is_aligned_with_wind 10 a = 1 ↔ (345 ≤ a ∨ a ≤ 35)) ∧
      (is_aligned_with_current 10 a = 1 ↔ (345 ≤ a ∨ a ≤ 35)) := by
    intro a ha0 ha1
    have h := hgen 10 (by norm_num) (by norm_num) a ha0 ha1
    exact ⟨h.1.trans (harc10 a ha0 ha1), h.2.trans (harc10 a ha0 ha1)⟩
  refine ⟨hgen, hten, ?_, ?_, ?_, ?_⟩
  · rcases is_aligned_with_wind_zero_or_one 10 344 with h | h
    · exact h
    · exact absurd ((hten 344 (by norm_num) (by norm_num)).1.mp h) (by omega)
  · rcases is_aligned_with_wind_zero_or_one 10 36 with h | h
    · exact h
    · exact absurd ((hten 36 (by norm_num) (by norm_num)).1.mp h) (by omega)
  · have h01 : is_aligned_with_current 10 344 = 0 ∨ is_aligned_with_current 10 344 = 1 := by
      unfold is_aligned_with_current
      dsimp only
      split_ifs <;> simp
    rcases h01 with h | h
    · exact h
    · exact absurd ((hten 344 (by norm_num) (by norm_num)).2.mp h) (by omega)
  · have h01 : is_aligned_with_current 10 36 = 0 ∨ is_aligned_with_current 10 36 = 1 := by
      unfold is_aligned_with_current
      dsimp only
      split_ifs <;> simp
    rcases h01 with h | h
    · exact h
    · exact absurd ((hten 36 (by norm_num) (by norm_num)).2.mp h) (by omega)

/-- Witness for the alignment claim at sampled direction 10 and movement
angle 20 (a wind-aligned and current-aligned move). -/
theorem claim_C4_alignment_witness :
    (is_aligned_with_wind 10 20 = 1 ↔ withinToleranceArc 10 20) ∧
    (is_aligned_with_current 10 20 = 1 ↔ withinToleranceArc 10 20) :=
  claim_C4_alignment.1 10 (by norm_num) (by norm_num) 20 (by norm_num) (by norm_num)

/-! ## Cost model (ActualMain.calculate_fscore, lines 887-934)

The source computes `euclidean(neighbor, end)` with `math.sqrt` and fetches
`h_heuristic(neighbor)` from the memoized external surface; both are factored
out here as the explicitly passed values `euclid` and `heur`, since the claims
quantify over all values these externals can take.  `horizontal_buttons[0..2]`
(the fuel / speed / comfort optimization toggles) are the three boolean
parameters `fuelB`, `speedB`, `comfortB`; `is_first_box_green` /
`is_second_box_green` are `cargo` / `passenger`. -/

/-- ActualMain.calculate_fscore: decision table over the profile flags and the
optimization toggles selecting a linear blend of g-score, Euclidean distance
to goal and heuristic value, followed by one 0.9 discount factor per active
alignment flag. -/
def calculate_fscore (cargo passenger fuelB speedB comfortB : Bool)
    (g_score euclid heur : ℚ) (wind_alignment current_alignment : ℤ) : ℚ :=
  let f_score : ℚ :=
    if cargo then
      if fuelB then 0.4 * g_score + 0.2 * euclid + 0.1 * heur
      else if speedB then 0.3 * g_score + 0.7 * euclid + 0.1 * heur
      else if comfortB then 0.3 * g_score + 0.2 * euclid + 1 * heur
      else 0.3 * g_score + 0.7 * euclid + 0.1 * heur
    else if passenger then
      if fuelB then 0.4 * g_score + 0.2 * euclid + 0.1 * heur
      else if speedB then 0.3 * g_score + 0.7 * euclid + 0.1 * heur
      else if comfortB then 0.3 * g_score + 0.2 * euclid + 1 * heur
      else 0.3 * g_score + 0.2 * euclid + 1 * heur
    else
      if fuelB then 0.4 * g_score + 0.2 * euclid + 0.1 * heur
      else if speedB then 0.3 * g_score + 0.7 * euclid + 0.1 * heur
      else if comfortB then 0.3 * g_score + 0.2 * euclid + 1 * heur
      else g_score + euclid
  let f_score : ℚ := if wind_alignment = 1 then f_score * 0.9 else f_score
  if current_alignment = 1 then f_score * 0.9 else f_score

/-- Claim C7: the alignment discount is multiplicative, one factor 0.9 per
active alignment flag, so a doubly-aligned neighbor's f-score is exactly
81/100 of the score computed with both alignment flags off, for every
profile/weighting configuration and all input values. -/
theorem claim_C7_discount (cargo passenger fuelB speedB comfortB : Bool)
    (g e h : ℚ) :
    calculate_fscore cargo passenger fuelB speedB comfortB g e h 1 1 =
      0.81 * calculate_fscore cargo passenger fuelB speedB comfortB g e h 0 0 ∧
    calculate_fscore cargo passenger fuelB speedB comfortB g e h 1 0 =
      0.9 * calculate_fscore cargo passenger fuelB speedB comfortB g e h 0 0 ∧
    calculate_fscore cargo passenger fuelB speedB comfortB g e h 0 1 =
      0.9 * calculate_fscore cargo passenger fuelB speedB comfortB g e h 0 0 := by
  refine ⟨?_, ?_, ?_⟩ <;>
    (unfold calculate_fscore; dsimp only; norm_num; try ring_nf)

/-- Claim C8: with the comfort weighting selected (third optimization toggle,
the first two off), the cargo-profile branch and the passenger-profile branch
compute the same blend 0.3 * g + 0.2 * euclid + 1 * heur, hence equal
f-scores for all inputs. -/
theorem claim_C8_comfort_branches (g e h : ℚ) (w c : ℤ) :
    calculate_fscore true false false false true g e h w c =
      calculate_fscore false true false false true g e h w c ∧
    calculate_fscore true false false false true g e h 0 0 =
      0.3 * g + 0.2 * e + 1 * h ∧
    calculate_fscore false true false false true g e h 0 0 =
      0.3 * g + 0.2 * e + 1 * h := by
  unfold calculate_fscore
  norm_num

/-- Claim C9: with no profile flag and no optimization toggle selected the
base score is exactly g + euclid (no heuristic term), and every other
configuration blends with one of the three fixed coefficient triples
(0.4, 0.2, 0.1), (0.3, 0.7, 0.1), (0.3, 0.2, 1). -/
theorem claim_C9_fallback :
    (∀ g e h : ℚ,
      calculate_fscore false false false false false g e h 0 0 = g + e) ∧
    (∀ cargo passenger fuelB speedB comfortB : Bool,
      (cargo = true ∨ passenger = true ∨ fuelB = true ∨ speedB = true ∨ comfortB = true) →
      ∃ a b c : ℚ,
        ((a, b, c) = ((0.4 : ℚ), (0.2 : ℚ), (0.1 : ℚ)) ∨
          (a, b, c) = ((0.3 : ℚ), (0.7 : ℚ), (0.1 : ℚ)) ∨
          (a, b, c) = ((0.3 : ℚ), (0.2 : ℚ), (1 : ℚ))) ∧
        ∀ g e h : ℚ,
          calculate_fscore cargo passenger fuelB speedB comfortB g e h 0 0 =
            a * g + b * e + c * h) := by
  constructor
  · intro g e h
    unfold calculate_fscore
    norm_num
  · intro cargo passenger fuelB speedB comfortB hsel
    cases cargo <;> cases passenger <;> cases fuelB <;> cases speedB <;> cases comfortB <;>
      first
      | (exfalso; revert hsel; decide)
      | (refine ⟨0.4, 0.2, 0.1, Or.inl rfl, ?_⟩
         intro g e h; unfold calculate_fscore; norm_num; done)
      | (refine ⟨0.3, 0.7, 0.1, Or.inr (Or.inl rfl), ?_⟩
         intro g e h; unfold calculate_fscore; norm_num; done)
      | (refine ⟨0.3, 0.2, 1, Or.inr (Or.inr rfl), ?_⟩
         intro g e h; unfold calculate_fscore; norm_num; done)

/-- Witness for the fallback-uniqueness claim: the cargo profile with no
weighting selected uses one of the three fixed blend triples. -/
theorem claim_C9_fallback_witness :
    ∃ a b c : ℚ,
      ((a, b, c) = ((0.4 : ℚ), (0.2 : ℚ), (0.1 : ℚ)) ∨
        (a, b, c) = ((0.3 : ℚ), (0.7 : ℚ), (0.1 : ℚ)) ∨
        (a, b, c) = ((0.3 : ℚ), (0.2 : ℚ), (1 : ℚ))) ∧
      ∀ g e h : ℚ,
        calculate_fscore true false false false false g e h 0 0 =
          a * g + b * e + c * h :=
  claim_C9_fallback.2 true false false false false (Or.inl rfl)

/-- Claim C10: whenever at least one optimization weighting is selected, the
f-score does not depend on the cargo/passenger profile flags: all three
profile branches carry identical coefficients for each selected weighting. -/
theorem claim_C10_profile_independence (fuelB speedB comfortB : Bool)
    (hsel : fuelB = true ∨ speedB = true ∨ comfortB = true)
    (cargo passenger cargo2 passenger2 : Bool) (g e h : ℚ) (w c : ℤ) :
    calculate_fscore cargo passenger fuelB speedB comfortB g e h w c =
      calculate_fscore cargo2 passenger2 fuelB speedB comfortB g e h w c := by
  cases fuelB <;> cases speedB <;> cases comfortB <;>
    cases cargo <;> cases passenger <;> cases cargo2 <;> cases passenger2 <;>
      first
      | (exfalso; revert hsel; decide)
      | rfl

/-- Witness for the profile-independence claim, at the speed weighting with
the two profile-flag settings that differ. -/
theorem claim_C10_profile_independence_witness :
    calculate_fscore true false false true false 5 7 11 1 0 =
      calculate_fscore false true false true false 5 7 11 1 0 :=
  claim_C10_profile_independence false true false (Or.inr (Or.inl rfl))
    true false false true 5 7 11 1 0

/-! ## Memoization caches and the start-of-search clearing action
(ActualMain.py lines 812-815 and 1175-1181) -/

/-- A grid cell: the (x, y) integer pair used as cache key and search node. -/
abbrev Cell := ℤ × ℤ

/-- The four module-level memoization tables (lines 812-815), keyed by grid
cell; the stored values are the provider samples (wind direction, current
direction, heuristic value, depth). -/
structure Caches where
  wind_cache : List (Cell × ℚ)
  current_cache : List (Cell × ℚ)
  heuristic_cache : List (Cell × ℚ)
  depth_cache : List (Cell × ℚ)

/-- The start-button handler that begins a new search (lines 1176-1181): it
clears the wind, current, and heuristic caches.  It does not touch the depth
cache (no other code clears it either). -/
def start_button_clear (c : Caches) : Caches :=
  { c with wind_cache := [], current_cache := [], heuristic_cache := [] }

/-- A cache state as it may stand when a prior query has populated all four
tables. -/
def caches_before : Caches :=
  { wind_cache := [((1, 2), 45)], current_cache := [((1, 2), 90)],
    heuristic_cache := [((1, 2), 3)], depth_cache := [((3, 4), -60)] }

/-- Claim C2 fails on the code: the start action clears only three of the four
caches — the depth cache survives into the new search, so a depth sample from
a prior query remains visible. -/
theorem claim_C2_counterexample :
    (start_button_clear caches_before).wind_cache = [] ∧
    (start_button_clear caches_before).current_cache = [] ∧
    (start_button_clear caches_before).heuristic_cache = [] ∧
    (start_button_clear caches_before).depth_cache = [((3, 4), -60)] ∧
    (start_button_clear caches_before).depth_cache ≠ [] := by
  refine ⟨rfl, rfl, rfl, rfl, ?_⟩
  simp [start_button_clear, caches_before]

/-- Claim C2 (amended): when a new search begins, the wind, current and
heuristic caches are cleared, while the depth cache is carried over unchanged
from the previous query. -/
theorem claim_C2_cache_clearing (c : Caches) :
    (start_button_clear c).wind_cache = [] ∧
    (start_button_clear c).current_cache = [] ∧
    (start_button_clear c).heuristic_cache = [] ∧
    (start_button_clear c).depth_cache = c.depth_cache :=
  ⟨rfl, rfl, rfl, rfl⟩

/-! ## Manual-mode pre-search validation (ActualMain.py lines 1371-1411) -/

def GRID_SIZE : ℤ := 4

def GRID_WIDTH : ℤ := 550

def GRID_HEIGHT : ℤ := 600

def MAX_X : ℤ := GRID_WIDTH / GRID_SIZE

def MAX_Y : ℤ := GRID_HEIGHT / GRID_SIZE

/-- Outcome of the manual-mode dispatch: one constructor per error message
shown before the search, or `runSearch`, which marks the `a_star(start, end,
cargo, passenger, ...)` call of line 1411 with the grid cells it receives. -/
inductive DispatchOutcome where
  | startOutsideBounds
  | endOutsideBounds
  | startOnLand
  | endOnLand
  | runSearch (start goal : Cell)
deriving DecidableEq

/-- The manual-mode validation pipeline after coordinate parsing and region
validation (lines 1371-1411): convert the geographic inputs to grid cells,
check both cells against the grid bounds, check both against the land-pixel
mask (`is_black_pixel`, abstracted as the `isBlack` oracle), and only if all
checks pass invoke the search.  Note that neither the static blocked-cell set
nor the depth threshold is consulted here. -/
def manual_mode_dispatch (isBlack : Cell → Bool)
    (start_longitude start_latitude end_longitude end_latitude : ℚ) : DispatchOutcome :=
  let start : Cell := (longitude_to_grid start_longitude, latitude_to_grid start_latitude)
  let goal : Cell := (longitude_to_grid end_longitude, latitude_to_grid end_latitude)
  if ¬ (0 ≤ start.1 ∧ start.1 < MAX_X ∧ 0 ≤ start.2 ∧ start.2 < MAX_Y) then .startOutsideBounds
  else if ¬ (0 ≤ goal.1 ∧ goal.1 < MAX_X ∧ 0 ≤ goal.2 ∧ goal.2 < MAX_Y) then .endOutsideBounds
  else if isBlack start then .startOnLand
  else if isBlack goal then .endOnLand
  else .runSearch start goal

/-- The full navigability test the neighbor generator applies to every
candidate cell (line 958): not a land pixel, not in the static blocked set,
and depth strictly below -48. -/
def navigable (isBlack : Cell → Bool) (blocks : List Cell) (depth : Cell → ℚ)
    (c : Cell) : Prop :=
  isBlack c = false ∧ c ∉ blocks ∧ depth c < -48

/-- Concrete dispatch run: with no land pixels anywhere, the manual inputs
(70.125 E, 10 N) to (71.125 E, 10 N) resolve to cells (23, 127) and (27, 127)
and the search is started. -/
lemma manual_mode_dispatch_example :
    manual_mode_dispatch (fun _ => false) 70.125 10 71.125 10 =
      DispatchOutcome.runSearch (23, 127) (27, 127) := by
  have e1 : longitude_to_grid 70.125 = 23 := by
    have h : (70.125 : ℚ) = ((280 : ℤ) : ℚ) / 4 + 1 / 8 := by norm_num
    rw [h, longitude_to_grid_eighth 280 (by norm_num [WESTERNMOST_LONGITUDE])
      (by norm_num [EASTERNMOST_LONGITUDE])]
    norm_num [WESTERNMOST_GRID_X, EASTERNMOST_GRID_X]
  have e2 : longitude_to_grid 71.125 = 27 := by
    have h : (71.125 : ℚ) = ((284 : ℤ) : ℚ) / 4 + 1 / 8 := by norm_num
    rw [h, longitude_to_grid_eighth 284 (by norm_num [WESTERNMOST_LONGITUDE])
      (by norm_num [EASTERNMOST_LONGITUDE])]
    norm_num [WESTERNMOST_GRID_X, EASTERNMOST_GRID_X]
  have e3 : latitude_to_grid 10 = 127 := by
    have h : (10 : ℚ) = ((40 : ℤ) : ℚ) / 4 := by norm_num
    rw [h, latitude_to_grid_quarter 40 (by norm_num [SOUTHERNMOST_LATITUDE])
      (by norm_num [NORTHERNMOST_LATITUDE])]
    norm_num [NORTHERNMOST_GRID_Y, SOUTHERNMOST_GRID_Y]
  unfold manual_mode_dispatch
  dsimp only
  rw [e1, e2, e3]
  norm_num [MAX_X, MAX_Y, GRID_WIDTH, GRID_HEIGHT, GRID_SIZE]

/-- Claim C3 fails on the code: the pre-search check consults only the grid
bounds and the land-pixel mask.  Here the start cell (23, 127) is a member of
the static blocked set (so it fails the full navigability test the neighbor
generator would apply), yet no error is reported and the search is invoked
with that start cell. -/
theorem claim_C3_counterexample :
    manual_mode_dispatch (fun _ => false) 70.125 10 71.125 10 =
      DispatchOutcome.runSearch (23, 127) (27, 127) ∧
    ¬ navigable (fun _ => false) [(23, 127)] (fun _ => (-100 : ℚ)) (23, 127) :=
  ⟨manual_mode_dispatch_example, fun h => h.2.1 (List.mem_singleton.mpr rfl)⟩

/-- Claim C3 (amended): before the search begins, the start and goal cells are
checked against the grid bounds and the land-pixel mask only — the search is
invoked exactly when both cells pass those two checks, and a land start or
goal is reported as an error with no search started.  Membership in the
static blocked-cell set and the depth threshold are not pre-checked. -/
theorem claim_C3_prevalidation (isBlack : Cell → Bool)
    (slon slat elon elat : ℚ) :
    (∀ s g : Cell,
      manual_mode_dispatch isBlack slon slat elon elat = DispatchOutcome.runSearch s g →
      isBlack s = false ∧ isBlack g = false ∧
      0 ≤ s.1 ∧ s.1 < MAX_X ∧ 0 ≤ s.2 ∧ s.2 < MAX_Y ∧
      0 ≤ g.1 ∧ g.1 < MAX_X ∧ 0 ≤ g.2 ∧ g.2 < MAX_Y) ∧
    (isBlack (longitude_to_grid slon, latitude_to_grid slat) = true →
      ∀ s g : Cell,
        manual_mode_dispatch isBlack slon slat elon elat ≠ DispatchOutcome.runSearch s g) := by
  unfold manual_mode_dispatch
  dsimp only
  constructor
  · intro s g h
    split_ifs at h with h1 h2 h3 h4
    rw [DispatchOutcome.runSearch.injEq] at h
    obtain ⟨hs, hg⟩ := h
    subst hs
    subst hg
    simp only [Bool.not_eq_true] at h3 h4
    exact ⟨h3, h4, h1.1, h1.2.1, h1.2.2.1, h1.2.2.2, h2.1, h2.2.1, h2.2.2.1, h2.2.2.2⟩
  · intro hb s g h
    split_ifs at h with h1 h2 h3 h4

/-- Witness for the amended pre-search validation claim, at the concrete run
of `manual_mode_dispatch_example`. -/
theorem claim_C3_prevalidation_witness :
    (fun _ : Cell => false) ((23 : ℤ), (127 : ℤ)) = false ∧
    (fun _ : Cell => false) ((27 : ℤ), (127 : ℤ)) = false ∧
    (0 : ℤ) ≤ 23 ∧ (23 : ℤ) < MAX_X ∧ (0 : ℤ) ≤ 127 ∧ (127 : ℤ) < MAX_Y ∧
    (0 : ℤ) ≤ 27 ∧ (27 : ℤ) < MAX_X ∧ (0 : ℤ) ≤ 127 ∧ (127 : ℤ) < MAX_Y :=
  (claim_C3_prevalidation (fun _ => false) 70.125 10 71.125 10).1
    (23, 127) (27, 127) manual_mode_dispatch_example

/-! ## Search engine (ActualMain.a_star, lines 976-1108)

The environment record collects the external collaborators the search calls
through narrow interfaces: the land mask, the static blocked set, the depth,
wind, current, and heuristic providers (all deterministic per cell for the
duration of one search, so the per-cell memoization of the source is
observation-equivalent to calling the provider), the profile/weighting flags,
and the Euclidean metric `eucl` (the source computes it with `math.sqrt`,
whose values are irrational; the search logic proved below is independent of
the actual metric, so it is a parameter). -/

structure SearchEnv where
  isBlack : Cell → Bool
  blocks : List Cell
  depth : Cell → ℚ
  windDir : Cell → ℚ
  currentDir : Cell → ℚ
  heuristicVal : Cell → ℚ
  eucl : Cell → Cell → ℚ
  cargo : Bool
  passenger : Bool
  fuelB : Bool
  speedB : Bool
  comfortB : Bool

/-- The fixed expansion order of get_neighbors (line 942). -/
def directions : List (ℤ × ℤ) :=
  [(0, 1), (1, 0), (0, -1), (-1, 0), (1, 1), (-1, -1), (1, -1), (-1, 1)]

/-- The integer movement angle `round(degrees(atan2(dy, dx))) % 360` for the
eight compass steps: the atan2 of a unit compass step is an exact multiple of
45 degrees, so the rounding is exact. -/
def movement_angle (dx dy : ℤ) : ℤ :=
  if dx = 0 ∧ dy = 1 then 90
  else if dx = 1 ∧ dy = 0 then 0
  else if dx = 0 ∧ dy = -1 then 270
  else if dx = -1 ∧ dy = 0 then 180
  else if dx = 1 ∧ dy = 1 then 45
  else if dx = -1 ∧ dy = -1 then 225
  else if dx = 1 ∧ dy = -1 then 315
  else if dx = -1 ∧ dy = 1 then 135
  else 0

/-- ActualMain.get_neighbors (lines 940-963): expand the eight directions,
keep in-bounds cells that pass the navigability test, and pair each survivor
with its wind/current alignment flags for the direction taken (sampled at the
neighbor cell, as the source does). -/
def get_neighbors (env : SearchEnv) (position : Cell) : List (Cell × ℤ × ℤ) :=
  directions.filterMap fun d =>
    let nx := position.1 + d.1
    let ny := position.2 + d.2
    if 0 ≤ nx ∧ nx < MAX_X ∧ 0 ≤ ny ∧ ny < MAX_Y then
      if env.isBlack (nx, ny) = false ∧ (nx, ny) ∉ env.blocks ∧ env.depth (nx, ny) < -48 then
        some ((nx, ny),
          is_aligned_with_wind (env.windDir (nx, ny)) (movement_angle d.1 d.2),
          is_aligned_with_current (env.currentDir (nx, ny)) (movement_angle d.1 d.2))
      else none
    else none

/-- Association-list lookup keyed by cell (models a Python dict read). -/
def alist_get {α : Type} (l : List (Cell × α)) (c : Cell) : Option α :=
  (l.find? fun p => decide (p.1 = c)).map Prod.snd

/-- Association-list update keyed by cell (models a Python dict write). -/
def alist_put {α : Type} (l : List (Cell × α)) (c : Cell) (v : α) : List (Cell × α) :=
  (c, v) :: l.filter fun p => decide (p.1 ≠ c)

/-- An entry of the open priority queue: (f-score, insertion counter, cell),
compared lexicographically as Python's PriorityQueue compares its tuples;
counters are unique so the cell component is never reached. -/
abbrev OpenEntry := ℚ × ℕ × Cell

def entry_le (a b : OpenEntry) : Bool :=
  decide (a.1 < b.1) || (decide (a.1 = b.1) && decide (a.2.1 ≤ b.2.1))

/-- Pop the minimal entry of the open set (Python `PriorityQueue.get`). -/
def popMin : List OpenEntry → Option (OpenEntry × List OpenEntry)
  | [] => none
  | e :: rest =>
    match popMin rest with
    | none => some (e, rest)
    | some (m, rest2) => if entry_le e m then some (e, rest) else some (m, e :: rest2)

/-- The mutable state of one `a_star` call: open set, insertion counter,
predecessor map, g-score and f-score maps, closed set, explored list. -/
structure AStarState where
  open_set : List OpenEntry
  counter : ℕ
  came_from : List (Cell × Cell)
  g_score : List (Cell × ℚ)
  f_score : List (Cell × ℚ)
  closed_set : List Cell
  explored_nodes : List Cell

def walk_pred (came_from : List (Cell × Cell)) : ℕ → Cell → List Cell
  | 0, _ => []
  | n + 1, c =>
    match alist_get came_from c with
    | some p => c :: walk_pred came_from n p
    | none => []

/-- Path reconstruction (lines 1022-1027): follow predecessors from the goal
while one exists, append the start, reverse.  The fuel bound
`came_from.length + 1` covers any acyclic predecessor map. -/
def reconstruct_path (came_from : List (Cell × Cell)) (start cur : Cell) : List Cell :=
  (walk_pred came_from (came_from.length + 1) cur ++ [start]).reverse

/-- The neighbor-relaxation loop of one A* iteration (lines 1087-1104). -/
def expand_neighbors (env : SearchEnv) (goal current : Cell) (s : AStarState) : AStarState :=
  (get_neighbors env current).foldl
    (fun st nb =>
      let neighbor := nb.1
      let wind_alignment := nb.2.1
      let current_alignment := nb.2.2
      if neighbor ∈ st.closed_set then st
      else
        let tentative_g_score := (alist_get st.g_score current).getD 0 + env.eucl current neighbor
        let tentative_f_score := calculate_fscore env.cargo env.passenger
          env.fuelB env.speedB env.comfortB tentative_g_score
          (env.eucl neighbor goal) (env.heuristicVal neighbor)
          wind_alignment current_alignment
        if alist_get st.g_score neighbor = none ∨
            tentative_g_score < (alist_get st.g_score neighbor).getD 0 then
          { st with
            came_from := alist_put st.came_from neighbor current,
            g_score := alist_put st.g_score neighbor tentative_g_score,
            f_score := alist_put st.f_score neighbor tentative_f_score,
            open_set := st.open_set ++ [(tentative_f_score, st.counter, neighbor)],
            counter := st.counter + 1 }
        else st)
    s

/-- Result of one loop iteration: either the call returns (with the path
option and the explored list), or the loop continues in a new state. -/
inductive StepRes where
  | done (res : Option (List Cell)) (explored : List Cell)
  | next (s : AStarState)

/-- One iteration of the A* main loop (lines 1010-1104).  The second
component is the list of progress-bar events emitted during the iteration
(line 1019): `(len(explored), min(len(explored) + 100, max_nodes))`.
`max_nodes` flows only into these events. -/
def a_star_step (env : SearchEnv) (start goal : Cell) (max_nodes : ℕ)
    (s : AStarState) : StepRes × List (ℕ × ℕ) :=
  match popMin s.open_set with
  | none => (.done none s.explored_nodes, [])
  | some (e, rest) =>
    let current := e.2.2
    if current ∈ s.closed_set then (.next { s with open_set := rest }, [])
    else
      let closed_set := current :: s.closed_set
      let explored_nodes := s.explored_nodes ++ [current]
      let ev := [(explored_nodes.length, min (explored_nodes.length + 100) max_nodes)]
      if current = goal then
        (.done (some (reconstruct_path s.came_from start current)) explored_nodes, ev)
      else
        (.next (expand_neighbors env goal current
          { s with open_set := rest, closed_set := closed_set,
                   explored_nodes := explored_nodes }), ev)

/-- The A* main loop, iterated with explicit fuel (the source's `while not
open_set.empty()` loop); `acc` accumulates the emitted progress events.
`none` means the fuel ran out — a modelling artifact, never a source
outcome. -/
def a_star_loop (env : SearchEnv) (start goal : Cell) (max_nodes : ℕ) :
    ℕ → AStarState → List (ℕ × ℕ) →
      Option (Option (List Cell) × List Cell × List (ℕ × ℕ))
  | 0, _, _ => none
  | fuel + 1, s, acc =>
    match a_star_step env start goal max_nodes s with
    | (.done res explored, ev) => some (res, explored, acc ++ ev)
    | (.next s2, ev) => a_star_loop env start goal max_nodes fuel s2 (acc ++ ev)

/-- The initial search state (lines 987-997). -/
def a_star_init (env : SearchEnv) (start goal : Cell) : AStarState :=
  { open_set := [(0, 0, start)], counter := 1, came_from := [],
    g_score := [(start, 0)], f_score := [(start, env.eucl start goal)],
    closed_set := [], explored_nodes := [] }

/-- ActualMain.a_star with its `max_nodes = 10000` constant (line 1006). -/
def a_star (env : SearchEnv) (start goal : Cell) (fuel : ℕ) :
    Option (Option (List Cell) × List Cell × List (ℕ × ℕ)) :=
  a_star_loop env start goal 10000 fuel (a_star_init env start goal) []

/-- Project a loop outcome onto the value the caller receives, dropping the
progress-display events. -/
def route_result (r : Option (Option (List Cell) × List Cell × List (ℕ × ℕ))) :
    Option (Option (List Cell) × List Cell) :=
  r.map fun t => (t.1, t.2.1)

lemma popMin_eq_none_iff (l : List OpenEntry) : popMin l = none ↔ l = [] := by
  cases l with
  | nil => simp [popMin]
  | cons e rest =>
    simp only [popMin]
    constructor
    · intro h
      exfalso
      cases hp : popMin rest with
      | none => rw [hp] at h; simp at h
      | some p =>
        obtain ⟨m, rest2⟩ := p
        rw [hp] at h
        dsimp only at h
        split_ifs at h <;> simp at h
    · intro h
      exact absurd h (by simp)

lemma a_star_step_fst (env : SearchEnv) (start goal : Cell) (m1 m2 : ℕ)
    (s : AStarState) :
    (a_star_step env start goal m1 s).1 = (a_star_step env start goal m2 s).1 := by
  unfold a_star_step
  cases popMin s.open_set with
  | none => rfl
  | some p =>
    obtain ⟨e, rest⟩ := p
    dsimp only
    split_ifs <;> rfl

lemma a_star_loop_result_indep (env : SearchEnv) (start goal : Cell) (m1 m2 : ℕ) :
    ∀ fuel : ℕ, ∀ s : AStarState, ∀ acc1 acc2 : List (ℕ × ℕ),
      route_result (a_star_loop env start goal m1 fuel s acc1) =
        route_result (a_star_loop env start goal m2 fuel s acc2) := by
  intro fuel
  induction fuel with
  | zero => intro s acc1 acc2; rfl
  | succ n ih =>
    intro s acc1 acc2
    have hfst := a_star_step_fst env start goal m1 m2 s
    unfold a_star_loop
    rcases h1 : a_star_step env start goal m1 s with ⟨r1, ev1⟩
    rcases h2 : a_star_step env start goal m2 s with ⟨r2, ev2⟩
    rw [h1, h2] at hfst
    dsimp only at hfst
    subst hfst
    cases r1 with
    | done res explored => simp [route_result]
    | next s2 => exact ih s2 (acc1 ++ ev1) (acc2 ++ ev2)

/-- Claim C5: the `max_nodes = 10000` constant never caps exploration — the
value the caller receives is identical for any value of the constant (it only
scales the progress display), and an iteration returns from the loop exactly
when the open set is exhausted or the popped entry is the not-yet-closed
goal; the closed-set size plays no role in termination. -/
theorem claim_C5_max_nodes :
    (∀ env : SearchEnv, ∀ start goal : Cell, ∀ m1 m2 fuel : ℕ,
      ∀ s : AStarState, ∀ acc : List (ℕ × ℕ),
      route_result (a_star_loop env start goal m1 fuel s acc) =
        route_result (a_star_loop env start goal m2 fuel s acc)) ∧
    (∀ env : SearchEnv, ∀ start goal : Cell, ∀ m : ℕ, ∀ s : AStarState,
      ∀ res : Option (List Cell), ∀ explored : List Cell, ∀ ev : List (ℕ × ℕ),
      a_star_step env start goal m s = (StepRes.done res explored, ev) →
      s.open_set = [] ∨
        ∃ f : ℚ, ∃ c : ℕ, ∃ rest : List OpenEntry,
          popMin s.open_set = some ((f, c, goal), rest) ∧ goal ∉ s.closed_set) := by
  constructor
  · intro env start goal m1 m2 fuel s acc
    exact a_star_loop_result_indep env start goal m1 m2 fuel s acc acc
  · intro env start goal m s res explored ev h
    unfold a_star_step at h
    rcases hp : popMin s.open_set with _ | ⟨⟨f, c, cur⟩, rest⟩
    · exact Or.inl ((popMin_eq_none_iff _).mp hp)
    · rw [hp] at h
      dsimp only at h
      split_ifs at h with hclosed hgoal
      · exact absurd h (by simp)
      · refine Or.inr ⟨f, c, rest, ?_, ?_⟩
        · rw [hgoal]
        · rw [← hgoal]; exact hclosed
      · exact absurd h (by simp)

/-- A search environment with no obstacles and unit step costs, used to
instantiate the universally quantified theorems. -/
def test_env : SearchEnv :=
  { isBlack := fun _ => false, blocks := [], depth := fun _ => -100,
    windDir := fun _ => 0, currentDir := fun _ => 0, heuristicVal := fun _ => 0,
    eucl := fun _ _ => 1, cargo := false, passenger := false,
    fuelB := false, speedB := false, comfortB := false }

/-- A search state whose open set is exhausted. -/
def empty_state : AStarState :=
  { open_set := [], counter := 0, came_from := [], g_score := [],
    f_score := [], closed_set := [], explored_nodes := [] }

/-- Witness for the termination-shape claim at a concrete exhausted state. -/
theorem claim_C5_max_nodes_witness :
    empty_state.open_set = [] ∨
      ∃ f : ℚ, ∃ c : ℕ, ∃ rest : List OpenEntry,
        popMin empty_state.open_set = some ((f, c, ((1 : ℤ), (1 : ℤ))), rest) ∧
          ((1 : ℤ), (1 : ℤ)) ∉ empty_state.closed_set :=
  claim_C5_max_nodes.2 test_env (0, 0) (1, 1) 10000 empty_state none [] [] rfl

/-- A search environment in which every cell except (5, 80) is a land pixel:
the start cell is fully enclosed by non-navigable cells. -/
def blocked_env : SearchEnv :=
  { test_env with isBlack := fun c => decide (c ≠ (5, 80)) }

/-- Claim C6: when the open set is exhausted without reaching the goal, the
loop returns the no-path value (None paired with the explored list) as an
ordinary return value — the embedding is a total function and this outcome is
a `runSearch`-side value, not one of the pre-search validation errors.  In
particular a start cell fully enclosed by land yields exactly
(None, [start]) after exploring only the start. -/
theorem claim_C6_no_path :
    (∀ env : SearchEnv, ∀ start goal : Cell, ∀ m fuel : ℕ,
      ∀ s : AStarState, ∀ acc : List (ℕ × ℕ), s.open_set = [] →
      a_star_loop env start goal m (fuel + 1) s acc =
        some (none, s.explored_nodes, acc)) ∧
    a_star blocked_env (5, 80) (9, 90) 3 =
      some (none, [(5, 80)], [(1, 101)]) := by
  constructor
  · intro env start goal m fuel s acc h
    unfold a_star_loop a_star_step
    rw [h]
    simp [popMin]
  · rfl

/-- Witness for the open-set-exhaustion claim at a concrete empty state. -/
theorem claim_C6_no_path_witness :
    a_star_loop test_env (0, 0) (1, 1) 10000 1 empty_state [] =
      some (none, [], []) :=
  claim_C6_no_path.1 test_env (0, 0) (1, 1) 10000 0 empty_state [] rfl

end ShipNav
